import Mathlib

/-!
Verification of the two example programs of the feluda repository:
`examples/c-example/main.c` and `examples/cpp-example/main.cpp`.

Each program is embedded shallowly as a pure function from the behaviour of
the linked third-party libraries (modelled as explicit records of the values
their calls return) and an explicit world state (standard output, a file
system, process environment variables) to a final world and an exit code.
Undefined behaviour (the unchecked dereference of the pointer returned by
`curl_version_info`) is modelled by `Option`: `none` is the UB branch.
-/

/-! ### Generic string machinery -/

/-- Boolean test that the first character list is a prefix of the second. -/
def prefixB : List Char → List Char → Bool
  | [], _ => true
  | _ :: _, [] => false
  | a :: as, b :: bs => a == b && prefixB as bs

/-- Boolean test that the first character list occurs contiguously inside the second. -/
def infixB : List Char → List Char → Bool
  | n, [] => n.isEmpty
  | n, b :: bs => prefixB n (b :: bs) || infixB n bs

/-- Boolean substring test on strings: `substrB needle hay` holds when
`needle` occurs contiguously in `hay`. -/
def substrB (needle hay : String) : Bool :=
  infixB needle.data hay.data

/-- Joins a list of lines into the byte stream a program writing each line
followed by a single newline produces. -/
def unlines (ls : List String) : String :=
  ls.foldr (fun l acc => l ++ "\n" ++ acc) ""

theorem prefixB_append_right (n post : List Char) : prefixB n (n ++ post) = true := by
  induction n with
  | nil => rfl
  | cons a as ih => simp [prefixB, ih]

theorem infixB_append_left (pre n : List Char) : infixB n (pre ++ n) = true := by
  induction pre with
  | nil =>
    cases n with
    | nil => rfl
    | cons b bs =>
      have h := prefixB_append_right (b :: bs) []
      simp only [List.append_nil] at h
      simp [infixB, h]
  | cons c cs ih => simp [infixB, ih]

theorem substrB_append_left (pre n : String) : substrB n (pre ++ n) = true := by
  simp only [substrB, String.data_append]
  exact infixB_append_left pre.data n.data

theorem infixB_nil_left (l : List Char) : infixB [] l = true := by
  cases l with
  | nil => rfl
  | cons b bs => simp [infixB, prefixB]

theorem infixB_self_append (n post : List Char) : infixB n (n ++ post) = true := by
  cases n with
  | nil => exact infixB_nil_left post
  | cons b bs =>
    have h := prefixB_append_right (b :: bs) post
    simp only [List.cons_append] at h
    simp only [infixB, List.cons_append, Bool.or_eq_true]
    exact Or.inl h

theorem infixB_prepend (pre n h : List Char) (hh : infixB n h = true) :
    infixB n (pre ++ h) = true := by
  induction pre with
  | nil => simpa using hh
  | cons c cs ih => simp [infixB, ih]

theorem substrB_middle (pre n post : String) : substrB n (pre ++ n ++ post) = true := by
  simp only [substrB, String.data_append, List.append_assoc]
  exact infixB_prepend pre.data n.data (n.data ++ post.data) (infixB_self_append n.data post.data)

/-! ### The world state

The observable state a process can touch: the bytes written so far to
standard output, a file system, and the process environment variables.
The two example programs only ever append to `stdout`. -/

structure World where
  stdout : String
  files : List (String × String)
  envVars : List (String × String)
deriving DecidableEq

/-- The world a freshly started process sees: nothing written yet. -/
def world0 : World := { stdout := "", files := [], envVars := [] }

/-! ### The C example, `examples/c-example/main.c`

```c
int main() {
    printf("C example with transient dependencies\n");
    printf("OpenSSL version: %s\n", OPENSSL_VERSION_TEXT);
    curl_version_info_data *ver = curl_version_info(CURLVERSION_NOW);
    printf("libcurl version: %s\n", ver->version);
    printf("zlib version: %s\n", zlibVersion());
    return 0;
}
```
-/

/-- The `curl_version_info_data` record; only the `version` field is read. -/
structure CurlVersionInfoData where
  version : String
deriving DecidableEq

/-- Compile-time constants taken from the headers the C example includes:
`OPENSSL_VERSION_TEXT` is a preprocessor string constant from
`<openssl/opensslv.h>`, fixed when the program is compiled. -/
structure CHeaders where
  OPENSSL_VERSION_TEXT : String
deriving DecidableEq

/-- Results of the runtime calls the C example makes into its linked
libraries: `curl_version_info(CURLVERSION_NOW)` returns a pointer
(`none` models NULL) and `zlibVersion()` returns a version string. -/
structure CRuntime where
  curl_version_info : Option CurlVersionInfoData
  zlibVersion : String
deriving DecidableEq

/-- Shallow embedding of the C example's `main`. Each `printf("...%s\n", x)`
appends its formatted text to `stdout`. The dereference `ver->version` of the
unchecked pointer returned by `curl_version_info` is undefined behaviour when
that pointer is NULL, modelled as `none`. -/
def cMain (hdr : CHeaders) (rt : CRuntime) (w : World) : Option (World × Int) :=
  let w1 := { w with stdout := w.stdout ++ "C example with transient dependencies\n" }
  let w2 := { w1 with stdout := w1.stdout ++ ("OpenSSL version: " ++ hdr.OPENSSL_VERSION_TEXT ++ "\n") }
  match rt.curl_version_info with
  | none => none
  | some ver =>
    let w3 := { w2 with stdout := w2.stdout ++ ("libcurl version: " ++ ver.version ++ "\n") }
    let w4 := { w3 with stdout := w3.stdout ++ ("zlib version: " ++ rt.zlibVersion ++ "\n") }
    some (w4, 0)

/-- The C example's entry point as the operating system invokes it, with the
argument vector and the process environment: the source's `main` is declared
with no parameters and never calls `getenv`, so both are ignored. -/
def cMainArgv (_argv : List String) (_envp : List (String × String))
    (hdr : CHeaders) (rt : CRuntime) (w : World) : Option (World × Int) :=
  cMain hdr rt w

/-- The text the C example appends to standard output, and its exit code,
as a pure function of the library behaviour alone. -/
def cWriter (hdr : CHeaders) (rt : CRuntime) : Option (String × Int) :=
  match rt.curl_version_info with
  | none => none
  | some ver =>
    some ("C example with transient dependencies\n"
      ++ ("OpenSSL version: " ++ hdr.OPENSSL_VERSION_TEXT ++ "\n")
      ++ ("libcurl version: " ++ ver.version ++ "\n")
      ++ ("zlib version: " ++ rt.zlibVersion ++ "\n"), 0)

/-- A complete run of the C example from process start: the bytes written to
standard output and the exit code. -/
def cRun (hdr : CHeaders) (rt : CRuntime) : Option (String × Int) :=
  (cMain hdr rt world0).map (fun p => (p.1.stdout, p.2))

/-! ### Concrete library fixtures used by witnesses -/

def testVer : CurlVersionInfoData := { version := "8.5.0" }

def testHdr : CHeaders := { OPENSSL_VERSION_TEXT := "OpenSSL 3.0.13 30 Jan 2024" }

def testRt : CRuntime := { curl_version_info := some testVer, zlibVersion := "1.3.1" }

/-! ### The C++ example, `examples/cpp-example/main.cpp`

```cpp
int main() {
    fmt::print("C++ example with transient dependencies\n");
    spdlog::info("Using spdlog for logging");
    json j = {
        {"message", "C++ example with transient dependencies"},
        {"libraries", {"fmt", "nlohmann-json", "spdlog", "boost"}}
    };
    std::cout << j.dump(2) << std::endl;
    return 0;
}
```

The JSON model below follows `nlohmann::json` (an external library the
example links): an object stores its members in an `std::map`, i.e. sorted by
key in byte order, and `dump(indent)` pretty-prints with `indent` spaces per
nesting level, a newline after every opening bracket and every comma, and the
closing bracket on its own line at the enclosing level. -/

/-- JSON values as the C++ example uses them: strings, arrays and objects. -/
inductive Json where
  | str : String → Json
  | arr : List Json → Json
  | obj : List (String × Json) → Json

/-- Byte-order comparison of character lists, as `std::map<std::string, _>`
orders its keys (the keys involved are ASCII, where code-point order and
byte order coincide). -/
def charsLt : List Char → List Char → Bool
  | [], [] => false
  | [], _ :: _ => true
  | _ :: _, [] => false
  | a :: as, b :: bs =>
    if a.val < b.val then true
    else if a.val = b.val then charsLt as bs
    else false

/-- Key comparison for the object map. -/
def strLtB (a b : String) : Bool := charsLt a.data b.data

/-- Ordered insertion of a key/value pair, as inserting into an `std::map`:
an already present key keeps its first value. -/
def insertKey (k : String) (v : Json) : List (String × Json) → List (String × Json)
  | [] => [(k, v)]
  | (k₂, v₂) :: rest =>
    if strLtB k k₂ then (k, v) :: (k₂, v₂) :: rest
    else if k = k₂ then (k₂, v₂) :: rest
    else (k₂, v₂) :: insertKey k v rest

/-- Building a JSON object from an initializer list of key/value pairs, as
`nlohmann::json`'s brace construction does: the pairs go into the sorted map. -/
def mkObj (l : List (String × Json)) : Json :=
  Json.obj (l.foldl (fun acc kv => insertKey kv.1 kv.2 acc) [])

/-- Serialization of one character of a JSON string, as nlohmann's serializer
escapes it (the characters the example uses need no escaping). -/
def escapeChar (c : Char) : String :=
  if c = '"' then "\\\""
  else if c = '\\' then "\\\\"
  else if c = '\n' then "\\n"
  else if c = '\t' then "\\t"
  else if c = '\r' then "\\r"
  else String.mk [c]

/-- Serialization of the characters of a JSON string. -/
def escapeString (s : String) : String :=
  s.data.foldl (fun acc c => acc ++ escapeChar c) ""

/-- A run of spaces, the indentation `dump` writes. -/
def spaces (n : Nat) : String := String.mk (List.replicate n ' ')

mutual

/-- Pretty-printing of a JSON value, as `nlohmann::json::dump(ind)` with a
positive indent width `ind` renders it at nesting depth giving the current
indentation `cur`. -/
def dumpVal (ind cur : Nat) : Json → String
  | .str s => "\"" ++ escapeString s ++ "\""
  | .arr [] => "[]"
  | .arr (x :: xs) =>
    "[\n" ++ dumpArrItems ind (cur + ind) (x :: xs) ++ "\n" ++ spaces cur ++ "]"
  | .obj [] => "\x7b\x7d"
  | .obj (kv :: kvs) =>
    "\x7b\n" ++ dumpObjItems ind (cur + ind) (kv :: kvs) ++ "\n" ++ spaces cur ++ "\x7d"

/-- The comma-and-newline separated, indented items of a JSON array. -/
def dumpArrItems (ind cur : Nat) : List Json → String
  | [] => ""
  | [x] => spaces cur ++ dumpVal ind cur x
  | x :: y :: xs =>
    spaces cur ++ dumpVal ind cur x ++ ",\n" ++ dumpArrItems ind cur (y :: xs)

/-- The comma-and-newline separated, indented members of a JSON object. -/
def dumpObjItems (ind cur : Nat) : List (String × Json) → String
  | [] => ""
  | [(k, v)] => spaces cur ++ "\"" ++ escapeString k ++ "\": " ++ dumpVal ind cur v
  | (k, v) :: kv :: kvs =>
    spaces cur ++ "\"" ++ escapeString k ++ "\": " ++ dumpVal ind cur v ++ ",\n"
      ++ dumpObjItems ind cur (kv :: kvs)

end

/-- Lookup of a key in a JSON object. -/
def objLookup (k : String) : Json → Option Json
  | .obj kvs => kvs.lookup k
  | _ => none

/-- Behaviour of the linked C++ libraries the example's output depends on:
`spdlogPre` is the text the default spdlog pattern writes before the message
of an info-level log line (timestamp, logger name and level markup). -/
structure CppLibs where
  spdlogPre : String
deriving DecidableEq

/-- The JSON value `j` the C++ example builds from its initializer list. -/
def cppJ : Json :=
  mkObj [("message", .str "C++ example with transient dependencies"),
         ("libraries", .arr [.str "fmt", .str "nlohmann-json", .str "spdlog", .str "boost"])]

/-- Shallow embedding of the C++ example's `main`: `fmt::print` writes its
literal text, `spdlog::info` writes one log line (prefix, message, newline) to
the default stdout logger, and `std::cout << j.dump(2) << std::endl` writes
the pretty-printed JSON followed by a newline. -/
def cppMain (libs : CppLibs) (w : World) : World × Int :=
  let w1 := { w with stdout := w.stdout ++ "C++ example with transient dependencies\n" }
  let w2 := { w1 with stdout := w1.stdout ++ (libs.spdlogPre ++ "Using spdlog for logging" ++ "\n") }
  let w3 := { w2 with stdout := w2.stdout ++ (dumpVal 2 0 cppJ ++ "\n") }
  (w3, 0)

/-- The C++ example's entry point as the operating system invokes it: the
argument vector and the environment are ignored, as the source's `main` has no
parameters and never reads the environment. -/
def cppMainArgv (_argv : List String) (_envp : List (String × String))
    (libs : CppLibs) (w : World) : World × Int :=
  cppMain libs w

/-- The text the C++ example appends to standard output, and its exit code,
as a pure function of the library behaviour alone. -/
def cppWriter (libs : CppLibs) : String × Int :=
  ("C++ example with transient dependencies\n"
    ++ (libs.spdlogPre ++ "Using spdlog for logging" ++ "\n")
    ++ (dumpVal 2 0 cppJ ++ "\n"), 0)

/-- A complete run of the C++ example from process start. -/
def cppRun (libs : CppLibs) : String × Int :=
  ((cppMain libs world0).1.stdout, (cppMain libs world0).2)

def testCppLibs : CppLibs := { spdlogPre := "[2024-01-01 12:00:00.000] [info] " }

/-- Runtime record with `curl_version_info` returning NULL. -/
def noCurlRt : CRuntime := { curl_version_info := none, zlibVersion := "1.3.1" }

/-- The final world of a run of the C example under the test fixtures. -/
def cTestFinal : World :=
  { stdout := "C example with transient dependencies\nOpenSSL version: OpenSSL 3.0.13 30 Jan 2024\nlibcurl version: 8.5.0\nzlib version: 1.3.1\n",
    files := [], envVars := [] }

/-- The full text the C example writes, as a template uniform in the three
version strings it interpolates: the program consumes each library result
verbatim, without inspecting it. -/
def cTemplate (ossl curlv zv : String) : String :=
  "C example with transient dependencies\n"
    ++ ("OpenSSL version: " ++ ossl ++ "\n")
    ++ ("libcurl version: " ++ curlv ++ "\n")
    ++ ("zlib version: " ++ zv ++ "\n")

/-- The full text the C++ example writes, as a template uniform in the spdlog
line prefix. -/
def cppTemplate (pre : String) : String :=
  "C++ example with transient dependencies\n"
    ++ (pre ++ "Using spdlog for logging" ++ "\n")
    ++ (dumpVal 2 0 cppJ ++ "\n")

/-! ### The claims -/

/-- C1: whenever the C example runs to completion (the curl version pointer is
non-NULL) and the three version strings are newline-free, its standard output
consists of exactly four lines in this order: the literal
"C example with transient dependencies", a line containing the OpenSSL version
text, a line containing the libcurl version string, and a line containing the
zlib version string. -/
theorem c1_c_output_lines (hdr : CHeaders) (rt : CRuntime) (ver : CurlVersionInfoData)
    (hc : rt.curl_version_info = some ver)
    (h1 : '\n' ∉ hdr.OPENSSL_VERSION_TEXT.data)
    (h2 : '\n' ∉ ver.version.data)
    (h3 : '\n' ∉ rt.zlibVersion.data) :
    ∃ l2 l3 l4 : String,
      cRun hdr rt = some (unlines ["C example with transient dependencies", l2, l3, l4], 0)
      ∧ '\n' ∉ l2.data ∧ '\n' ∉ l3.data ∧ '\n' ∉ l4.data
      ∧ substrB hdr.OPENSSL_VERSION_TEXT l2 = true
      ∧ substrB ver.version l3 = true
      ∧ substrB rt.zlibVersion l4 = true := by
  refine ⟨"OpenSSL version: " ++ hdr.OPENSSL_VERSION_TEXT,
          "libcurl version: " ++ ver.version,
          "zlib version: " ++ rt.zlibVersion, ?_, ?_, ?_, ?_, ?_, ?_, ?_⟩
  · have e1 : ("C example with transient dependencies\n" : String)
        = "C example with transient dependencies" ++ "\n" := rfl
    simp [cRun, cMain, hc, unlines, e1, String.append_assoc, String.empty_append,
      String.append_empty]
    rw [show world0.stdout = "" from rfl, String.empty_append, e1, String.append_assoc]
  · simp only [String.data_append, List.mem_append, not_or]
    exact ⟨by decide, h1⟩
  · simp only [String.data_append, List.mem_append, not_or]
    exact ⟨by decide, h2⟩
  · simp only [String.data_append, List.mem_append, not_or]
    exact ⟨by decide, h3⟩
  · exact substrB_append_left _ _
  · exact substrB_append_left _ _
  · exact substrB_append_left _ _

/-- Witness for C1 at the concrete library fixtures. -/
theorem c1_witness :
    ∃ l2 l3 l4 : String,
      cRun testHdr testRt = some (unlines ["C example with transient dependencies", l2, l3, l4], 0)
      ∧ '\n' ∉ l2.data ∧ '\n' ∉ l3.data ∧ '\n' ∉ l4.data
      ∧ substrB testHdr.OPENSSL_VERSION_TEXT l2 = true
      ∧ substrB testVer.version l3 = true
      ∧ substrB testRt.zlibVersion l4 = true :=
  c1_c_output_lines testHdr testRt testVer rfl (by decide) (by decide) (by decide)

theorem substrB_prepend (pre n h : String) (hh : substrB n h = true) :
    substrB n (pre ++ h) = true := by
  simp only [substrB, String.data_append]
  exact infixB_prepend pre.data n.data h.data hh

/-- C2: whenever the spdlog line prefix is newline-free, the C++ example's
standard output is, in this order: the literal line
"C++ example with transient dependencies", a log line containing the message
"Using spdlog for logging", and a pretty-printed text block containing the
quoted keys "message" and "libraries" and the four quoted library names
fmt, nlohmann-json, spdlog and boost, followed by a final newline. -/
theorem c2_cpp_output (libs : CppLibs) (hp : '\n' ∉ libs.spdlogPre.data) :
    ∃ logLine block : String,
      cppRun libs = ("C++ example with transient dependencies" ++ "\n"
          ++ (logLine ++ "\n") ++ (block ++ "\n"), 0)
      ∧ '\n' ∉ logLine.data
      ∧ substrB "Using spdlog for logging" logLine = true
      ∧ substrB "\"message\"" block = true
      ∧ substrB "\"libraries\"" block = true
      ∧ substrB "\"fmt\"" block = true
      ∧ substrB "\"nlohmann-json\"" block = true
      ∧ substrB "\"spdlog\"" block = true
      ∧ substrB "\"boost\"" block = true := by
  refine ⟨libs.spdlogPre ++ "Using spdlog for logging", dumpVal 2 0 cppJ,
    ?_, ?_, ?_, ?_, ?_, ?_, ?_, ?_, ?_⟩
  · have e1 : ("C++ example with transient dependencies\n" : String)
        = "C++ example with transient dependencies" ++ "\n" := rfl
    simp [cppRun, cppMain, world0, e1, String.append_assoc, String.empty_append]
  · simp only [String.data_append, List.mem_append, not_or]
    exact ⟨hp, by decide⟩
  · exact substrB_append_left _ _
  · decide
  · decide
  · decide
  · decide
  · decide
  · decide

/-- Witness for C2 at the concrete library fixture. -/
theorem c2_witness :
    ∃ logLine block : String,
      cppRun testCppLibs = ("C++ example with transient dependencies" ++ "\n"
          ++ (logLine ++ "\n") ++ (block ++ "\n"), 0)
      ∧ '\n' ∉ logLine.data
      ∧ substrB "Using spdlog for logging" logLine = true
      ∧ substrB "\"message\"" block = true
      ∧ substrB "\"libraries\"" block = true
      ∧ substrB "\"fmt\"" block = true
      ∧ substrB "\"nlohmann-json\"" block = true
      ∧ substrB "\"spdlog\"" block = true
      ∧ substrB "\"boost\"" block = true :=
  c2_cpp_output testCppLibs (by decide)

/-- C3, as stated, is false: the C example's output is not obtained purely by
querying the linked libraries at runtime. With the runtime library behaviour
held completely fixed, recompiling against OpenSSL headers whose
`OPENSSL_VERSION_TEXT` constant differs changes the output: the OpenSSL line
prints a constant baked in at compile time. -/
theorem c3_counterexample :
    cRun { OPENSSL_VERSION_TEXT := "OpenSSL 3.0.13 30 Jan 2024" } testRt
      ≠ cRun { OPENSSL_VERSION_TEXT := "OpenSSL 1.1.1w  11 Sep 2023" } testRt := by
  decide

/-- C3 amended: the libcurl and zlib version strings the C example prints are
the results of the runtime calls `curl_version_info(CURLVERSION_NOW)` and
`zlibVersion()`, interpolated verbatim; the OpenSSL version text, however, is
the compile-time header constant `OPENSSL_VERSION_TEXT`, not a runtime query. -/
theorem c3_amended_versions (hdr : CHeaders) (rt : CRuntime) (ver : CurlVersionInfoData)
    (hc : rt.curl_version_info = some ver) :
    cRun hdr rt = some ("C example with transient dependencies\n"
      ++ ("OpenSSL version: " ++ hdr.OPENSSL_VERSION_TEXT ++ "\n")
      ++ ("libcurl version: " ++ ver.version ++ "\n")
      ++ ("zlib version: " ++ rt.zlibVersion ++ "\n"), 0) := by
  simp [cRun, cMain, hc, world0, String.append_assoc, String.empty_append]

/-- Witness for the amended C3 at the concrete library fixtures. -/
theorem c3_amended_witness :
    cRun testHdr testRt = some ("C example with transient dependencies\n"
      ++ ("OpenSSL version: " ++ testHdr.OPENSSL_VERSION_TEXT ++ "\n")
      ++ ("libcurl version: " ++ testVer.version ++ "\n")
      ++ ("zlib version: " ++ testRt.zlibVersion ++ "\n"), 0) :=
  c3_amended_versions testHdr testRt testVer rfl

/-- C4: on every normal completion of either program the exit code is 0; no
code path of either `main` produces a non-zero exit code. -/
theorem c4_exit_code_zero (hdr : CHeaders) (rt : CRuntime) (w : World) (r : World × Int)
    (hc : cMain hdr rt w = some r) (libs : CppLibs) (w₂ : World) :
    r.2 = 0 ∧ (cppMain libs w₂).2 = 0 := by
  refine ⟨?_, rfl⟩
  cases h : rt.curl_version_info with
  | none => simp [cMain, h] at hc
  | some ver =>
    simp only [cMain, h] at hc
    cases hc
    rfl

/-- Witness for C4 at the concrete library fixtures. -/
theorem c4_witness : (cTestFinal, (0 : Int)).2 = 0 ∧ (cppMain testCppLibs world0).2 = 0 :=
  c4_exit_code_zero testHdr testRt world0 (cTestFinal, 0) rfl testCppLibs world0

/-- C5: each program is deterministic and idempotent: two runs of the same
program against the same linked-library behaviour write byte-identical
standard output and return the same exit code. -/
theorem c5_deterministic (hdrA hdrB : CHeaders) (rtA rtB : CRuntime) (lA lB : CppLibs)
    (h1 : hdrA = hdrB) (h2 : rtA = rtB) (h3 : lA = lB) :
    cRun hdrA rtA = cRun hdrB rtB ∧ cppRun lA = cppRun lB := by
  subst h1; subst h2; subst h3
  exact ⟨rfl, rfl⟩

/-- Witness for C5 at the concrete library fixtures. -/
theorem c5_witness :
    cRun testHdr testRt = cRun testHdr testRt ∧ cppRun testCppLibs = cppRun testCppLibs :=
  c5_deterministic testHdr testHdr testRt testRt testCppLibs testCppLibs rfl rfl rfl

/-- C6: both programs ignore the argument vector and the process environment:
any two invocations with different arguments or environments, against the same
libraries and initial world, behave identically. -/
theorem c6_ignores_argv_env (a₁ a₂ : List String) (e₁ e₂ : List (String × String))
    (hdr : CHeaders) (rt : CRuntime) (libs : CppLibs) (w : World) :
    cMainArgv a₁ e₁ hdr rt w = cMainArgv a₂ e₂ hdr rt w
      ∧ cppMainArgv a₁ e₁ libs w = cppMainArgv a₂ e₂ libs w :=
  ⟨rfl, rfl⟩

/-- C7: the only side effect of either entry routine is writing to standard
output: each run equals a pure writer acting on the world, appending a text
that depends only on the library behaviour, never reading or changing the file
system, the environment variables, or the previously written output. -/
theorem c7_frame_stdout_only :
    (∀ (hdr : CHeaders) (rt : CRuntime) (w : World),
      cMain hdr rt w = (cWriter hdr rt).map
        (fun p => ({ stdout := w.stdout ++ p.1, files := w.files, envVars := w.envVars }, p.2)))
    ∧ (∀ (libs : CppLibs) (w : World),
      cppMain libs w
        = ({ stdout := w.stdout ++ (cppWriter libs).1, files := w.files,
             envVars := w.envVars }, (cppWriter libs).2)) := by
  constructor
  · intro hdr rt w
    cases h : rt.curl_version_info with
    | none => simp [cMain, cWriter, h]
    | some ver => simp [cMain, cWriter, h, String.append_assoc]
  · intro libs w
    simp [cppMain, cppWriter, String.append_assoc]

/-- C8: neither program checks or branches on the results of its library
calls: every result a program uses is spliced verbatim into a fixed output
template, uniformly in its value, and there is no error-handling, recovery or
reporting path — even a NULL from `curl_version_info` produces no report and
no alternative exit code, only the unchecked dereference. -/
theorem c8_no_validation :
    (∀ (hdr : CHeaders) (rt : CRuntime) (ver : CurlVersionInfoData),
      rt.curl_version_info = some ver →
        cRun hdr rt = some (cTemplate hdr.OPENSSL_VERSION_TEXT ver.version rt.zlibVersion, 0))
    ∧ (∀ (hdr : CHeaders) (rt : CRuntime),
      rt.curl_version_info = none → cRun hdr rt = none)
    ∧ (∀ libs : CppLibs, cppRun libs = (cppTemplate libs.spdlogPre, 0)) := by
  refine ⟨?_, ?_, ?_⟩
  · intro hdr rt ver hc
    simp [cRun, cMain, cTemplate, hc, world0, String.append_assoc, String.empty_append]
  · intro hdr rt hc
    simp [cRun, cMain, hc]
  · intro libs
    simp [cppRun, cppMain, cppTemplate, world0, String.append_assoc, String.empty_append]

/-- Witness for C8 at the concrete library fixtures. -/
theorem c8_witness :
    cRun testHdr testRt
        = some (cTemplate testHdr.OPENSSL_VERSION_TEXT testVer.version testRt.zlibVersion, 0)
      ∧ cRun testHdr noCurlRt = none :=
  ⟨c8_no_validation.1 testHdr testRt testVer rfl, c8_no_validation.2.1 testHdr noCurlRt rfl⟩

/-- C9: the C example dereferences the `curl_version_info(CURLVERSION_NOW)`
result without a NULL check: a run hits the undefined-behaviour branch exactly
when that call returns NULL, and under the non-NULL precondition the branch is
unreachable. -/
theorem c9_null_deref_reachability (hdr : CHeaders) (rt : CRuntime) (w : World) :
    cMain hdr rt w = none ↔ rt.curl_version_info = none := by
  cases h : rt.curl_version_info with
  | none => simp [cMain, h]
  | some ver => simp [cMain, h]

/-- C10: the structured record the C++ example serializes is fully
determined: as an `std::map`-backed object it holds exactly the keys
"libraries" and "message", the "message" value is the literal header line, the
"libraries" value is exactly the array ["fmt", "nlohmann-json", "spdlog",
"boost"] in that order, and the program writes its serialization at
indentation width 2 followed by one newline. -/
theorem c10_json_record :
    cppJ = Json.obj
        [("libraries", Json.arr [Json.str "fmt", Json.str "nlohmann-json",
            Json.str "spdlog", Json.str "boost"]),
         ("message", Json.str "C++ example with transient dependencies")]
      ∧ objLookup "message" cppJ = some (Json.str "C++ example with transient dependencies")
      ∧ objLookup "libraries" cppJ = some (Json.arr [Json.str "fmt",
          Json.str "nlohmann-json", Json.str "spdlog", Json.str "boost"])
      ∧ (∀ (libs : CppLibs) (w : World),
          ((cppMain libs w).1).stdout
            = w.stdout ++ ("C++ example with transient dependencies\n"
                ++ ((libs.spdlogPre ++ "Using spdlog for logging" ++ "\n")
                ++ (dumpVal 2 0 cppJ ++ "\n")))) := by
  refine ⟨rfl, rfl, rfl, ?_⟩
  intro libs w
  simp [cppMain, String.append_assoc]
